import Mathlib

/-!
Verification of the flight-tracker service (`src/main.py`) against its
natural-language specification.

The embedding models the pure request/response behaviour of the service:
the outbound HTTP call is represented by an explicit `UpstreamResponse`
value that is passed in, and the handlers become total functions from the
request parameters and that value to the HTTP outcome.
-/

set_option autoImplicit false
set_option linter.unusedVariables false

namespace FlightTracker

/-- A JSON value as it appears in an upstream state vector: `null`, a
string, a number, or a boolean.  Numbers are modelled as rationals. -/
inductive JVal where
  | null : JVal
  | str : String → JVal
  | num : Rat → JVal
  | bool : Bool → JVal
deriving DecidableEq, Repr

/-- An upstream state vector is a fixed-position list of JSON values
(17 fields in the upstream schema). -/
abbrev StateVec : Type := List JVal

/-- Field access `state[i]` on a state vector (the upstream schema fixes
17 fields, so in-schema accesses never fall off the end; out-of-range
access is given the default `null`). -/
def fieldAt (st : StateVec) (i : Nat) : JVal := st.getD i JVal.null

/-- Python's `str.strip()` with no argument: remove whitespace from both
ends of the string. -/
def pyStrip (s : String) : String :=
  String.mk (((s.data.dropWhile Char.isWhitespace).reverse.dropWhile
    Char.isWhitespace).reverse)

/-- Python's `str.upper()` (on the ASCII range relevant to callsigns):
uppercase every character. -/
def pyToUpper (s : String) : String :=
  String.mk (s.data.map Char.toUpper)

/-- Python's `state[1] or ""` applied to a string-or-null JSON value:
`null` (and the falsy empty string) becomes `""`, any other string is
kept.  `src/main.py` line 84. -/
def pyStrOrEmpty : JVal → String
  | JVal.str s => s
  | _ => ""

/-- Whether a JSON value is a string or `null` — the shape the upstream
schema guarantees for the callsign field.  On other shapes the Python
expression `(state[1] or "").strip()` would raise, so theorems about the
scan assume this. -/
def strOrNull : JVal → Bool
  | JVal.null => true
  | JVal.str _ => true
  | _ => false

/-- Well-formedness of an upstream state vector: 17 fields and a
string-or-null callsign field, as the upstream schema guarantees. -/
def StateWF (st : StateVec) : Prop :=
  st.length = 17 ∧ strOrNull (fieldAt st 1) = true

instance (st : StateVec) : Decidable (StateWF st) := by
  unfold StateWF; infer_instance

/-- The normalized callsign of a state vector:
`(state[1] or "").strip().upper()` — `src/main.py` line 84. -/
def stateCallsignNorm (st : StateVec) : String :=
  pyToUpper (pyStrip (pyStrOrEmpty (fieldAt st 1)))

/-- Normalization of the input callsign:
`callsign.strip().upper()` — `src/main.py` line 70. -/
def normCallsign (callsign : String) : String :=
  pyToUpper (pyStrip callsign)

/-- The `"states"` value of the upstream JSON body: the key may be
absent, hold `null`, or hold a list of state vectors. -/
inductive StatesField where
  | absent : StatesField
  | null : StatesField
  | list : List StateVec → StatesField
deriving DecidableEq

/-- `data.get("states", []) or []` — `src/main.py` line 80: an absent key
defaults to `[]`, a `null` (falsy) value is replaced by `[]`, and a list
(an empty list being replaced by `[]`, i.e. itself) is kept. -/
def getStates : StatesField → List StateVec
  | StatesField.absent => []
  | StatesField.null => []
  | StatesField.list ss => ss

/-- The outcome of the one outbound HTTP call: either a response with a
status code and a parsed `"states"` field, or a transport-level failure
(`httpx.RequestError`) carrying its message. -/
inductive UpstreamResponse where
  | httpResponse : Nat → StatesField → UpstreamResponse
  | transportError : String → UpstreamResponse
deriving DecidableEq

/-- The result of `fetch_flight_state`: either the projected flight
record (an ordered list of named JSON fields, as a Python dict preserves
insertion order), or an `HTTPException` with a status code and detail. -/
inductive FetchResult where
  | ok : List (String × JVal) → FetchResult
  | httpError : Nat → String → FetchResult
deriving DecidableEq

/-- The flight record built on a match — `src/main.py` lines 86-104:
the upstream fields under their names, in order, with the callsign value
being the normalized `state_callsign` and `state[12]` (sensors) dropped. -/
def projectRecord (st : StateVec) : List (String × JVal) :=
  [ ("icao24", fieldAt st 0),
    ("callsign", JVal.str (stateCallsignNorm st)),
    ("origin_country", fieldAt st 2),
    ("time_position", fieldAt st 3),
    ("last_contact", fieldAt st 4),
    ("longitude", fieldAt st 5),
    ("latitude", fieldAt st 6),
    ("baro_altitude", fieldAt st 7),
    ("on_ground", fieldAt st 8),
    ("velocity", fieldAt st 9),
    ("true_track", fieldAt st 10),
    ("vertical_rate", fieldAt st 11),
    ("geo_altitude", fieldAt st 13),
    ("squawk", fieldAt st 14),
    ("spi", fieldAt st 15),
    ("position_source", fieldAt st 16) ]

/-- The linear scan of the `for state in states` loop — `src/main.py`
lines 82-85: return the first vector whose normalized callsign equals
the normalized input. -/
def scanStates (cc : String) : List StateVec → Option StateVec
  | [] => none
  | st :: rest => if stateCallsignNorm st = cc then some st else scanStates cc rest

/-- The fixed detail of the 502 raised on a non-success upstream
status — `src/main.py` line 75. -/
def upstreamFailDetail : String := "Failed to fetch data from OpenSky API"

/-- The detail of the 502 raised on a transport error —
`src/main.py` line 78. -/
def transportFailDetail (msg : String) : String :=
  "Error contacting OpenSky API: " ++ msg

/-- The detail of the 404 raised when the scan exhausts the list —
`src/main.py` line 106. -/
def notFoundDetail : String := "Flight not found or not currently tracked"

/-- `fetch_flight_state` — `src/main.py` lines 52-106, with the outbound
call's outcome passed in explicitly: non-200 status → 502 with a fixed
detail; transport error → 502 with the error message appended; otherwise
scan the states list and return the projection of the first match, or
404 if the scan exhausts the list. -/
def fetch_flight_state (callsign : String) (resp : UpstreamResponse) : FetchResult :=
  let callsign_clean := normCallsign callsign
  match resp with
  | UpstreamResponse.transportError msg =>
      FetchResult.httpError 502 (transportFailDetail msg)
  | UpstreamResponse.httpResponse status sf =>
      if status ≠ 200 then FetchResult.httpError 502 upstreamFailDetail
      else
        match scanStates callsign_clean (getStates sf) with
        | some st => FetchResult.ok (projectRecord st)
        | none => FetchResult.httpError 404 notFoundDetail

/-- The `GET /track` route — `src/main.py` lines 109-116.  The
`callsign` query parameter is declared required (`Query(...)`), so
FastAPI rejects a request without it with a 422 validation error before
the handler (and hence the outbound call) runs; otherwise the handler
delegates to `fetch_flight_state`.  The boolean records whether the
outbound call was made. -/
def track_route (callsign : Option String) (resp : UpstreamResponse) :
    FetchResult × Bool :=
  match callsign with
  | none => (FetchResult.httpError 422 "Field required", false)
  | some cs => (fetch_flight_state cs resp, true)

/-- Trim a JSON value when it is a string, leave it otherwise — the
callsign treatment of the `/region` record ("trimmed but not
case-normalized"). -/
def jvalTrim : JVal → JVal
  | JVal.str s => JVal.str (pyStrip s)
  | v => v

/-- Modelled from the spec: `src/` contains no `/region` route, so the
reduced 8-field Flight Record of spec §4.3 is taken from its words —
"Map every returned vector into a reduced Flight Record (8 fields:
icao24, callsign [trimmed but not case-normalized], origin_country,
longitude, latitude, altitude=baro_altitude, velocity, heading)". -/
def regionRecord (st : StateVec) : List (String × JVal) :=
  [ ("icao24", fieldAt st 0),
    ("callsign", jvalTrim (fieldAt st 1)),
    ("origin_country", fieldAt st 2),
    ("longitude", fieldAt st 5),
    ("latitude", fieldAt st 6),
    ("altitude", fieldAt st 7),
    ("velocity", fieldAt st 9),
    ("heading", fieldAt st 10) ]

/-- The result of the `/region` route: a JSON array of reduced records,
or an HTTP error status. -/
inductive RegionResult where
  | ok : List (List (String × JVal)) → RegionResult
  | httpError : Nat → RegionResult
deriving DecidableEq

/-- A raw `/region` bound parameter: absent, or present but
non-numeric, or a numeric value. -/
inductive BoundParam where
  | missing : BoundParam
  | nonNumeric : String → BoundParam
  | val : Rat → BoundParam
deriving DecidableEq

/-- Whether a bound parameter is present and numeric. -/
def boundOk : BoundParam → Bool
  | BoundParam.val _ => true
  | _ => false

/-- Modelled from the spec: `src/` contains no `/region` route, so this
follows spec §4.1/§4.3/§6 — all four bounds required and numeric
(otherwise a 400-class validation error before any outbound call);
upstream non-success or transport failure → 502; otherwise every
returned vector is mapped to the reduced record, an empty upstream
result giving an empty array.  The boolean records whether the outbound
call was made. -/
def region_route (lamin lomin lamax lomax : BoundParam)
    (resp : UpstreamResponse) : RegionResult × Bool :=
  if boundOk lamin ∧ boundOk lomin ∧ boundOk lamax ∧ boundOk lomax then
    match resp with
    | UpstreamResponse.transportError _ => (RegionResult.httpError 502, true)
    | UpstreamResponse.httpResponse status sf =>
        if status ≠ 200 then (RegionResult.httpError 502, true)
        else (RegionResult.ok ((getStates sf).map regionRecord), true)
  else (RegionResult.httpError 422, false)

/-- The example upstream vector of spec §8:
`["abc123","AA123 ","US",0,0,10.0,20.0,1000,false,250.5,90.0,0,null,1100,"1200",false,0]`. -/
def exampleVec : StateVec :=
  [JVal.str "abc123", JVal.str "AA123 ", JVal.str "US", JVal.num 0, JVal.num 0,
   JVal.num 10, JVal.num 20, JVal.num 1000, JVal.bool false, JVal.num (501/2),
   JVal.num 90, JVal.num 0, JVal.null, JVal.num 1100, JVal.str "1200",
   JVal.bool false, JVal.num 0]

/-- A full 17-field upstream vector whose callsign field is `null`. -/
def nullCallsignVec : StateVec :=
  [JVal.str "def456", JVal.null, JVal.str "FR", JVal.null, JVal.null,
   JVal.null, JVal.null, JVal.null, JVal.bool true, JVal.null,
   JVal.null, JVal.null, JVal.null, JVal.null, JVal.null,
   JVal.bool false, JVal.num 0]

/-- A second vector carrying the callsign `" aa123"` (normalizing to
`"AA123"` like `exampleVec`) with a different `icao24`. -/
def exampleVecB : StateVec :=
  [JVal.str "zzz999", JVal.str " aa123", JVal.str "DE", JVal.null, JVal.null,
   JVal.num 11, JVal.num 21, JVal.num 900, JVal.bool false, JVal.num 200,
   JVal.num 45, JVal.num 0, JVal.null, JVal.num 950, JVal.str "7000",
   JVal.bool false, JVal.num 0]

/-! ## Helper lemmas about the linear scan -/

theorem scanStates_eq_none_iff (cc : String) (ss : List StateVec) :
    scanStates cc ss = none ↔ ∀ st ∈ ss, stateCallsignNorm st ≠ cc := by
  induction ss with
  | nil => simp [scanStates]
  | cons v rest ih =>
      by_cases hv : stateCallsignNorm v = cc
      · simp [scanStates, hv]
      · simp [scanStates, hv, ih]

theorem scanStates_eq_some (cc : String) (ss : List StateVec) (st : StateVec)
    (h : scanStates cc ss = some st) :
    st ∈ ss ∧ stateCallsignNorm st = cc := by
  induction ss with
  | nil => simp [scanStates] at h
  | cons v rest ih =>
      by_cases hv : stateCallsignNorm v = cc
      · simp only [scanStates, hv, if_pos] at h
        cases h
        exact ⟨List.mem_cons_self _ _, hv⟩
      · simp only [scanStates, hv, if_neg, not_false_iff] at h
        obtain ⟨hmem, heq⟩ := ih h
        exact ⟨List.mem_cons_of_mem _ hmem, heq⟩

theorem scanStates_first (cc : String) (pre post : List StateVec) (st : StateVec)
    (hpre : ∀ v ∈ pre, stateCallsignNorm v ≠ cc)
    (hst : stateCallsignNorm st = cc) :
    scanStates cc (pre ++ st :: post) = some st := by
  induction pre with
  | nil => simp [scanStates, hst]
  | cons v rest ih =>
      have hv : stateCallsignNorm v ≠ cc := hpre v (List.mem_cons_self _ _)
      simp only [List.cons_append, scanStates, hv, if_neg, not_false_iff]
      exact ih fun w hw => hpre w (List.mem_cons_of_mem _ hw)

/-! ## Claim theorems -/

/-- C1: for every upstream state list and input callsign, the `/track`
lookup returns a record exactly when some vector's callsign field,
after `or ""`/trim/uppercase normalization, equals the trimmed and
uppercased input; and any returned record is the projection of a vector
whose normalized callsign equals the normalized input exactly — never a
partial match. -/
theorem track_match_iff_normalized_eq (callsign : String) (ss : List StateVec)
    (hwf : ∀ st ∈ ss, strOrNull (fieldAt st 1) = true) :
    ((∃ r, fetch_flight_state callsign
        (UpstreamResponse.httpResponse 200 (StatesField.list ss)) = FetchResult.ok r) ↔
      ∃ st ∈ ss, pyToUpper (pyStrip (pyStrOrEmpty (fieldAt st 1))) = pyToUpper (pyStrip callsign)) ∧
    (∀ r, fetch_flight_state callsign
        (UpstreamResponse.httpResponse 200 (StatesField.list ss)) = FetchResult.ok r →
      ∃ st ∈ ss, pyToUpper (pyStrip (pyStrOrEmpty (fieldAt st 1))) = pyToUpper (pyStrip callsign) ∧
        r = projectRecord st) := by
  have hnorm : ∀ st : StateVec,
      stateCallsignNorm st = pyToUpper (pyStrip (pyStrOrEmpty (fieldAt st 1))) := fun _ => rfl
  constructor
  · constructor
    · rintro ⟨r, hr⟩
      simp only [fetch_flight_state, getStates, ne_eq, not_true_eq_false, if_false] at hr
      cases hscan : scanStates (normCallsign callsign) ss with
      | none => rw [hscan] at hr; exact absurd hr (by simp)
      | some st =>
          obtain ⟨hmem, heq⟩ := scanStates_eq_some _ _ _ hscan
          exact ⟨st, hmem, heq⟩
    · rintro ⟨st, hmem, heq⟩
      simp only [fetch_flight_state, getStates, ne_eq, not_true_eq_false, if_false]
      cases hscan : scanStates (normCallsign callsign) ss with
      | none =>
          rw [scanStates_eq_none_iff] at hscan
          exact absurd heq (hscan st hmem)
      | some st2 => exact ⟨projectRecord st2, by simp⟩
  · intro r hr
    simp only [fetch_flight_state, getStates, ne_eq, not_true_eq_false, if_false] at hr
    cases hscan : scanStates (normCallsign callsign) ss with
    | none => rw [hscan] at hr; exact absurd hr (by simp)
    | some st =>
        rw [hscan] at hr
        obtain ⟨hmem, heq⟩ := scanStates_eq_some _ _ _ hscan
        exact ⟨st, hmem, heq, by simpa using hr.symm⟩

/-- C5: `/track` yields the 404 not-found failure exactly when the
upstream call succeeded (status 200) and every vector of the (possibly
defaulted-to-empty) states list has a normalized callsign different
from the normalized query — so a successful fetch with a match never
yields 404, and upstream failures yield 502, not 404. -/
theorem track_not_found_iff (callsign : String) (resp : UpstreamResponse) :
    fetch_flight_state callsign resp = FetchResult.httpError 404 notFoundDetail ↔
      ∃ sf, resp = UpstreamResponse.httpResponse 200 sf ∧
        ∀ st ∈ getStates sf, stateCallsignNorm st ≠ normCallsign callsign := by
  cases resp with
  | transportError msg => simp [fetch_flight_state]
  | httpResponse status sf =>
      by_cases hs : status = 200
      · subst hs
        simp only [fetch_flight_state, ne_eq, not_true_eq_false, if_false]
        cases hscan : scanStates (normCallsign callsign) (getStates sf) with
        | none =>
            rw [scanStates_eq_none_iff] at hscan
            simp only [UpstreamResponse.httpResponse.injEq, true_and]
            constructor
            · intro _; exact ⟨sf, rfl, hscan⟩
            · rintro ⟨sf2, h2, _⟩; trivial
        | some st =>
            obtain ⟨hmem, heq⟩ := scanStates_eq_some _ _ _ hscan
            simp only [UpstreamResponse.httpResponse.injEq, true_and]
            constructor
            · intro h; exact absurd h (by simp)
            · rintro ⟨sf2, h2, hnone⟩
              obtain rfl : sf2 = sf := by cases h2; rfl
              exact absurd heq (hnone st hmem)
      · simp only [fetch_flight_state, ne_eq, hs, not_false_iff, if_true]
        constructor
        · intro h; exact absurd h (by simp)
        · rintro ⟨sf2, h2, _⟩
          cases h2; exact absurd rfl hs

/-- C6: a `/track` request without the `callsign` query parameter is
rejected with a 422 validation error (a 400-class client error) and the
outbound call is never made, whatever the upstream would have
answered. -/
theorem track_missing_callsign_rejected (resp : UpstreamResponse) :
    track_route none resp = (FetchResult.httpError 422 "Field required", false) ∧
    (track_route none resp).2 = false ∧
    ∃ status d, (track_route none resp).1 = FetchResult.httpError status d ∧
      400 ≤ status ∧ status < 500 :=
  ⟨rfl, rfl, 422, "Field required", rfl, by norm_num, by norm_num⟩

/-- C9: when the upstream responds with status 200 but the `"states"`
value is `null` or the key is absent, `/track` treats it as the empty
list and fails with the 404 not-found error. -/
theorem track_null_states_not_found (callsign : String) :
    fetch_flight_state callsign
        (UpstreamResponse.httpResponse 200 StatesField.null) =
      FetchResult.httpError 404 notFoundDetail ∧
    fetch_flight_state callsign
        (UpstreamResponse.httpResponse 200 StatesField.absent) =
      FetchResult.httpError 404 notFoundDetail :=
  ⟨rfl, rfl⟩

/-- C1 witness: instantiating `track_match_iff_normalized_eq` on the
spec §8 example vector and query `"aa123"`. -/
theorem track_match_iff_normalized_eq_witness :
    (∀ st ∈ [exampleVec], strOrNull (fieldAt st 1) = true) ∧
    ((∃ r, fetch_flight_state "aa123"
        (UpstreamResponse.httpResponse 200 (StatesField.list [exampleVec])) =
          FetchResult.ok r) ↔
      ∃ st ∈ [exampleVec],
        pyToUpper (pyStrip (pyStrOrEmpty (fieldAt st 1))) = pyToUpper (pyStrip "aa123")) :=
  ⟨by decide, (track_match_iff_normalized_eq "aa123" [exampleVec] (by decide)).1⟩

/-- C4 counterexample: on an upstream status 500 (which is available),
the 502 raised by `/track` carries the fixed detail string, and the
upstream status is not forwarded in it (the digits `"500"` do not occur
in the detail). -/
theorem upstream_status_not_forwarded :
    fetch_flight_state "AA123"
        (UpstreamResponse.httpResponse 500 (StatesField.list [])) =
      FetchResult.httpError 502 upstreamFailDetail ∧
    ¬ ("500".data <:+: upstreamFailDetail.data) :=
  ⟨rfl, by decide⟩

/-- C4 amended: on any non-success upstream status or any transport
failure `/track` fails with 502; the transport error message is included
in the 502 detail for transport failures, but for a non-success status
the detail is a fixed message (so the upstream status is not
forwarded). -/
theorem upstream_failure_502 (callsign : String) (status : Nat) (sf : StatesField)
    (h : status ≠ 200) (msg : String) :
    fetch_flight_state callsign (UpstreamResponse.httpResponse status sf) =
        FetchResult.httpError 502 upstreamFailDetail ∧
    fetch_flight_state callsign (UpstreamResponse.transportError msg) =
        FetchResult.httpError 502 (transportFailDetail msg) ∧
    msg.data <:+: (transportFailDetail msg).data := by
  refine ⟨by simp [fetch_flight_state, h], rfl, ?_⟩
  show msg.data <:+: ("Error contacting OpenSky API: " ++ msg).data
  rw [String.data_append]
  exact (List.suffix_append _ _).isInfix

/-- C4 amended, witness: status 503 with a concrete transport message. -/
theorem upstream_failure_502_witness :
    (503 ≠ 200) ∧
    fetch_flight_state "AA123" (UpstreamResponse.httpResponse 503 StatesField.null) =
        FetchResult.httpError 502 upstreamFailDetail ∧
    fetch_flight_state "AA123" (UpstreamResponse.transportError "timed out") =
        FetchResult.httpError 502 (transportFailDetail "timed out") ∧
    "timed out".data <:+: (transportFailDetail "timed out").data :=
  ⟨by decide, upstream_failure_502 "AA123" 503 StatesField.null (by decide) "timed out"⟩

/-- C8: when the states list is any prefix of non-matching vectors
followed by a matching vector and an arbitrary tail (which may hold
further matches), `/track` returns the projection of that first
matching vector — the linear scan in list order stops at the first
match. -/
theorem track_first_match_wins (callsign : String) (pre post : List StateVec)
    (st : StateVec)
    (hpre : ∀ v ∈ pre, stateCallsignNorm v ≠ normCallsign callsign)
    (hst : stateCallsignNorm st = normCallsign callsign) :
    fetch_flight_state callsign
        (UpstreamResponse.httpResponse 200 (StatesField.list (pre ++ st :: post))) =
      FetchResult.ok (projectRecord st) := by
  simp only [fetch_flight_state, getStates, ne_eq, not_true_eq_false, if_false]
  rw [scanStates_first _ _ _ _ hpre hst]

/-- C8 witness: a non-matching vector, then two vectors both normalizing
to `"AA123"`; the first of the two (the spec §8 example vector) wins. -/
theorem track_first_match_wins_witness :
    (∀ v ∈ [nullCallsignVec], stateCallsignNorm v ≠ normCallsign "aa123") ∧
    stateCallsignNorm exampleVec = normCallsign "aa123" ∧
    fetch_flight_state "aa123"
        (UpstreamResponse.httpResponse 200
          (StatesField.list (nullCallsignVec :: exampleVec :: [exampleVecB]))) =
      FetchResult.ok (projectRecord exampleVec) :=
  ⟨by decide, by decide,
    track_first_match_wins "aa123" [nullCallsignVec] [exampleVecB] exampleVec
      (by decide) (by decide)⟩

/-- C10: a `null` callsign field normalizes to the empty string, so for
a query whose normalized callsign is non-empty such a vector never
matches: a list of only-null-callsign vectors yields the 404 not-found
error, any returned record comes from a vector with a non-null callsign
field, and on a status-200 response the lookup always terminates in
either a record or the 404 error — nothing else. -/
theorem null_callsign_never_matches (callsign : String)
    (hq : normCallsign callsign ≠ "") :
    (∀ st : StateVec, fieldAt st 1 = JVal.null → stateCallsignNorm st = "") ∧
    (∀ ss : List StateVec, (∀ st ∈ ss, fieldAt st 1 = JVal.null) →
      fetch_flight_state callsign
          (UpstreamResponse.httpResponse 200 (StatesField.list ss)) =
        FetchResult.httpError 404 notFoundDetail) ∧
    (∀ (ss : List StateVec) (r : List (String × JVal)),
      fetch_flight_state callsign
          (UpstreamResponse.httpResponse 200 (StatesField.list ss)) =
        FetchResult.ok r →
      ∃ st ∈ ss, stateCallsignNorm st = normCallsign callsign ∧
        fieldAt st 1 ≠ JVal.null ∧ r = projectRecord st) ∧
    (∀ ss : List StateVec,
      fetch_flight_state callsign
          (UpstreamResponse.httpResponse 200 (StatesField.list ss)) =
        FetchResult.httpError 404 notFoundDetail ∨
      ∃ r, fetch_flight_state callsign
          (UpstreamResponse.httpResponse 200 (StatesField.list ss)) =
        FetchResult.ok r) := by
  have hnull : ∀ st : StateVec, fieldAt st 1 = JVal.null → stateCallsignNorm st = "" := by
    intro st h
    unfold stateCallsignNorm
    rw [h]
    rfl
  refine ⟨hnull, ?_, ?_, ?_⟩
  · intro ss hss
    simp only [fetch_flight_state, getStates, ne_eq, not_true_eq_false, if_false]
    have : scanStates (normCallsign callsign) ss = none := by
      rw [scanStates_eq_none_iff]
      intro st hmem
      rw [hnull st (hss st hmem)]
      exact fun he => hq he.symm
    rw [this]
  · intro ss r hr
    simp only [fetch_flight_state, getStates, ne_eq, not_true_eq_false, if_false] at hr
    cases hscan : scanStates (normCallsign callsign) ss with
    | none => rw [hscan] at hr; exact absurd hr (by simp)
    | some st =>
        rw [hscan] at hr
        obtain ⟨hmem, heq⟩ := scanStates_eq_some _ _ _ hscan
        refine ⟨st, hmem, heq, ?_, by simpa using hr.symm⟩
        intro hnl
        exact hq (heq.symm.trans (hnull st hnl))
  · intro ss
    simp only [fetch_flight_state, getStates, ne_eq, not_true_eq_false, if_false]
    cases hscan : scanStates (normCallsign callsign) ss with
    | none => left; rfl
    | some st => right; exact ⟨projectRecord st, rfl⟩

/-- C10 witness: query `"AA1"` against a list holding only a
null-callsign vector. -/
theorem null_callsign_never_matches_witness :
    normCallsign "AA1" ≠ "" ∧
    fetch_flight_state "AA1"
        (UpstreamResponse.httpResponse 200 (StatesField.list [nullCallsignVec])) =
      FetchResult.httpError 404 notFoundDetail :=
  ⟨by decide,
    (null_callsign_never_matches "AA1" (by decide)).2.1 [nullCallsignVec] (by decide)⟩

/-- C2 counterexample: on the spec §8 example vector the `/track`
record has 16 named fields, not 15 — the upstream schema has 17 fields
and only sensors is dropped. -/
theorem track_record_not_fifteen_fields :
    fetch_flight_state "aa123"
        (UpstreamResponse.httpResponse 200 (StatesField.list [exampleVec])) =
      FetchResult.ok (projectRecord exampleVec) ∧
    (projectRecord exampleVec).length = 16 ∧
    (projectRecord exampleVec).length ≠ 15 :=
  ⟨rfl, rfl, by decide⟩

/-- C2 amended: every record returned by `/track` is the projection of a
matching vector and has exactly 16 named fields — the upstream sensors
field (position 12) is dropped and every other upstream field is carried
over under its name, the callsign being carried over in normalized
form. -/
theorem track_record_sixteen_fields (callsign : String) (ss : List StateVec)
    (r : List (String × JVal))
    (h : fetch_flight_state callsign
        (UpstreamResponse.httpResponse 200 (StatesField.list ss)) = FetchResult.ok r) :
    ∃ st ∈ ss, stateCallsignNorm st = normCallsign callsign ∧
      r = projectRecord st ∧
      r.length = 16 ∧
      r.map Prod.fst = ["icao24", "callsign", "origin_country", "time_position",
        "last_contact", "longitude", "latitude", "baro_altitude", "on_ground",
        "velocity", "true_track", "vertical_rate", "geo_altitude", "squawk",
        "spi", "position_source"] ∧
      "sensors" ∉ r.map Prod.fst ∧
      r.lookup "callsign" = some (JVal.str (stateCallsignNorm st)) ∧
      ∀ p ∈ [("icao24", 0), ("origin_country", 2), ("time_position", 3),
          ("last_contact", 4), ("longitude", 5), ("latitude", 6),
          ("baro_altitude", 7), ("on_ground", 8), ("velocity", 9),
          ("true_track", 10), ("vertical_rate", 11), ("geo_altitude", 13),
          ("squawk", 14), ("spi", 15), ("position_source", 16)],
        r.lookup p.1 = some (fieldAt st p.2) := by
  simp only [fetch_flight_state, getStates, ne_eq, not_true_eq_false, if_false] at h
  cases hscan : scanStates (normCallsign callsign) ss with
  | none => rw [hscan] at h; exact absurd h (by simp)
  | some st =>
      rw [hscan] at h
      obtain ⟨hmem, heq⟩ := scanStates_eq_some _ _ _ hscan
      obtain rfl : r = projectRecord st := by simpa using h.symm
      refine ⟨st, hmem, heq, rfl, rfl, rfl, by simp [projectRecord], rfl, ?_⟩
      intro p hp
      fin_cases hp <;> rfl

/-- C2 amended, witness: the record of the spec §8 example vector. -/
theorem track_record_sixteen_fields_witness :
    fetch_flight_state "aa123"
        (UpstreamResponse.httpResponse 200 (StatesField.list [exampleVec])) =
      FetchResult.ok (projectRecord exampleVec) ∧
    ∃ st ∈ [exampleVec], stateCallsignNorm st = normCallsign "aa123" ∧
      projectRecord exampleVec = projectRecord st ∧
      (projectRecord exampleVec).length = 16 ∧
      (projectRecord exampleVec).map Prod.fst = ["icao24", "callsign",
        "origin_country", "time_position", "last_contact", "longitude", "latitude",
        "baro_altitude", "on_ground", "velocity", "true_track", "vertical_rate",
        "geo_altitude", "squawk", "spi", "position_source"] ∧
      "sensors" ∉ (projectRecord exampleVec).map Prod.fst ∧
      (projectRecord exampleVec).lookup "callsign" =
        some (JVal.str (stateCallsignNorm st)) ∧
      ∀ p ∈ [("icao24", 0), ("origin_country", 2), ("time_position", 3),
          ("last_contact", 4), ("longitude", 5), ("latitude", 6),
          ("baro_altitude", 7), ("on_ground", 8), ("velocity", 9),
          ("true_track", 10), ("vertical_rate", 11), ("geo_altitude", 13),
          ("squawk", 14), ("spi", 15), ("position_source", 16)],
        (projectRecord exampleVec).lookup p.1 = some (fieldAt st p.2) :=
  ⟨rfl, track_record_sixteen_fields "aa123" [exampleVec] (projectRecord exampleVec) rfl⟩

/-- C7 counterexample: with `callsign` present but empty and an upstream
list holding a null-callsign vector, `/track` is not rejected with a
client-input error — the outbound call is made and a Flight Record is
returned. -/
theorem empty_callsign_returns_record :
    track_route (some "")
        (UpstreamResponse.httpResponse 200 (StatesField.list [nullCallsignVec])) =
      (FetchResult.ok (projectRecord nullCallsignVec), true) :=
  rfl

/-- C7 amended: a present-but-empty (or whitespace-only) callsign is not
rejected: the outbound call is made and the lookup proceeds with the
empty normalized callsign, returning the projection of the first vector
whose normalized callsign is empty, and the 404 not-found error when no
vector normalizes to the empty string. -/
theorem empty_callsign_not_rejected (cs : String) (resp : UpstreamResponse)
    (h : normCallsign cs = "") :
    track_route (some cs) resp = (fetch_flight_state cs resp, true) ∧
    (∀ ss : List StateVec, (∀ st ∈ ss, stateCallsignNorm st ≠ "") →
      fetch_flight_state cs
          (UpstreamResponse.httpResponse 200 (StatesField.list ss)) =
        FetchResult.httpError 404 notFoundDetail) ∧
    (∀ (pre post : List StateVec) (st : StateVec),
      (∀ v ∈ pre, stateCallsignNorm v ≠ "") → stateCallsignNorm st = "" →
      fetch_flight_state cs
          (UpstreamResponse.httpResponse 200 (StatesField.list (pre ++ st :: post))) =
        FetchResult.ok (projectRecord st)) := by
  refine ⟨rfl, ?_, ?_⟩
  · intro ss hss
    simp only [fetch_flight_state, getStates, ne_eq, not_true_eq_false, if_false]
    have : scanStates (normCallsign cs) ss = none := by
      rw [scanStates_eq_none_iff, h]
      exact hss
    rw [this]
  · intro pre post st hpre hst
    simp only [fetch_flight_state, getStates, ne_eq, not_true_eq_false, if_false]
    rw [scanStates_first _ _ _ _ (h ▸ hpre) (h ▸ hst)]

/-- C7 amended, witness: the whitespace-only callsign `"   "`. -/
theorem empty_callsign_not_rejected_witness :
    normCallsign "   " = "" ∧
    track_route (some "   ")
        (UpstreamResponse.httpResponse 200 (StatesField.list [nullCallsignVec])) =
      (fetch_flight_state "   "
        (UpstreamResponse.httpResponse 200 (StatesField.list [nullCallsignVec])), true) :=
  ⟨by decide, (empty_callsign_not_rejected "   " _ (by decide)).1⟩

/-- C3: the `/region` route (modelled from the spec, no such route being
present in `src/`): with four numeric bounds it maps every upstream
vector to the reduced 8-field record (callsign trimmed but not
case-normalized, altitude taken from baro_altitude, heading from the
true-track position), an empty upstream list yields an empty array and
not an error, upstream failure yields 502, and any missing or
non-numeric bound yields a 400-class validation error with no outbound
call. -/
theorem region_route_spec (a b c d : Rat) :
    (∀ ss : List StateVec,
      region_route (BoundParam.val a) (BoundParam.val b) (BoundParam.val c)
          (BoundParam.val d) (UpstreamResponse.httpResponse 200 (StatesField.list ss)) =
        (RegionResult.ok (ss.map regionRecord), true)) ∧
    (region_route (BoundParam.val a) (BoundParam.val b) (BoundParam.val c)
        (BoundParam.val d) (UpstreamResponse.httpResponse 200 (StatesField.list [])) =
      (RegionResult.ok [], true)) ∧
    (∀ st : StateVec,
      (regionRecord st).length = 8 ∧
      (regionRecord st).map Prod.fst =
        ["icao24", "callsign", "origin_country", "longitude", "latitude",
         "altitude", "velocity", "heading"] ∧
      (regionRecord st).lookup "icao24" = some (fieldAt st 0) ∧
      (regionRecord st).lookup "callsign" = some (jvalTrim (fieldAt st 1)) ∧
      (regionRecord st).lookup "origin_country" = some (fieldAt st 2) ∧
      (regionRecord st).lookup "longitude" = some (fieldAt st 5) ∧
      (regionRecord st).lookup "latitude" = some (fieldAt st 6) ∧
      (regionRecord st).lookup "altitude" = some (fieldAt st 7) ∧
      (regionRecord st).lookup "velocity" = some (fieldAt st 9) ∧
      (regionRecord st).lookup "heading" = some (fieldAt st 10)) ∧
    (∀ msg, region_route (BoundParam.val a) (BoundParam.val b) (BoundParam.val c)
        (BoundParam.val d) (UpstreamResponse.transportError msg) =
      (RegionResult.httpError 502, true)) ∧
    (∀ (status : Nat) (sf : StatesField), status ≠ 200 →
      region_route (BoundParam.val a) (BoundParam.val b) (BoundParam.val c)
          (BoundParam.val d) (UpstreamResponse.httpResponse status sf) =
        (RegionResult.httpError 502, true)) ∧
    (∀ (p1 p2 p3 p4 : BoundParam) (resp : UpstreamResponse),
      ¬(boundOk p1 = true ∧ boundOk p2 = true ∧ boundOk p3 = true ∧
          boundOk p4 = true) →
      region_route p1 p2 p3 p4 resp = (RegionResult.httpError 422, false) ∧
        400 ≤ 422 ∧ (422 : Nat) < 500) := by
  refine ⟨?_, ?_, ?_, ?_, ?_, ?_⟩
  · intro ss; simp [region_route, boundOk, getStates]
  · simp [region_route, boundOk, getStates]
  · intro st
    exact ⟨rfl, rfl, rfl, rfl, rfl, rfl, rfl, rfl, rfl, rfl⟩
  · intro msg; simp [region_route, boundOk]
  · intro status sf hs; simp [region_route, boundOk, hs]
  · intro p1 p2 p3 p4 resp hn
    refine ⟨?_, by norm_num, by norm_num⟩
    unfold region_route
    rw [if_neg hn]

/-- C3 witness: concrete bounds with an empty upstream list, and a
missing first bound. -/
theorem region_route_spec_witness :
    region_route (BoundParam.val 1) (BoundParam.val 2) (BoundParam.val 3)
        (BoundParam.val 4) (UpstreamResponse.httpResponse 200 (StatesField.list [])) =
      (RegionResult.ok [], true) ∧
    region_route BoundParam.missing (BoundParam.val 2) (BoundParam.val 3)
        (BoundParam.val 4) (UpstreamResponse.httpResponse 200 (StatesField.list [])) =
      (RegionResult.httpError 422, false) :=
  ⟨(region_route_spec 1 2 3 4).2.1,
   ((region_route_spec 1 2 3 4).2.2.2.2.2 BoundParam.missing (BoundParam.val 2)
     (BoundParam.val 3) (BoundParam.val 4)
     (UpstreamResponse.httpResponse 200 (StatesField.list [])) (by decide)).1⟩

end FlightTracker
